import Mathlib

/-!
Verification of the name-tag-gen layout engine.

The Python sources are shallowly embedded: Python strings become `List Char`,
floats become `ℚ` (all arithmetic in the layout engine is exact enough that
rational arithmetic mirrors it), fallible code returns `Except`, and the
ReportLab `pdfmetrics.stringWidth` font-metrics primitive is abstracted as a
width oracle `WidthOracle` passed to every function that measures text.

Sources embedded:
- src/utils/name_utils.py (name parsing, truncation, display-name API)
- src/renderers/badge_renderer_html.py (tag-row styling, micro-tag validation,
  vertical flow layout of `_prepare_badge_html`)
- src/location/location_renderer.py (location parsing, coordinate transform)
-/

/-! ## Python string primitives over `List Char` -/

/-- `str.lower()` (ASCII case folding, as used by the parser's lookup tables). -/
def pyLower (l : List Char) : List Char := l.map Char.toLower

/-- `str.endswith(suffix)`. -/
def pyEndsWith (l suffix : List Char) : Bool := suffix.isSuffixOf l

/-- `str.strip()`: remove leading and trailing whitespace. -/
def pyStrip (l : List Char) : List Char :=
  ((l.dropWhile Char.isWhitespace).reverse.dropWhile Char.isWhitespace).reverse

/-- Worker for `str.split()` with no separator: split on whitespace runs,
dropping empty pieces. `acc` holds the current token, reversed. -/
def splitWsAux : List Char → List Char → List (List Char)
  | [], acc => if acc = [] then [] else [acc.reverse]
  | c :: cs, acc =>
    if c.isWhitespace then
      (if acc = [] then splitWsAux cs [] else acc.reverse :: splitWsAux cs [])
    else splitWsAux cs (c :: acc)

/-- `full_name.strip().split()`: whitespace tokenization (leading/trailing
whitespace contributes nothing, so stripping first changes nothing). -/
def pyTokens (l : List Char) : List (List Char) := splitWsAux l []

/-- Worker for `str.split(',')`: split on commas, keeping empty pieces. -/
def splitCommaAux : List Char → List Char → List (List Char)
  | [], acc => [acc.reverse]
  | c :: cs, acc =>
    if c = ',' then acc.reverse :: splitCommaAux cs []
    else splitCommaAux cs (c :: acc)

/-- `location_str.split(',')`. -/
def pySplitComma (l : List Char) : List (List Char) := splitCommaAux l []

/-- Decimal digits of `n`, most significant first (Python `str(int)` for
non-negative values). Fueled to stay structurally recursive. -/
def natToCharsAux : ℕ → ℕ → List Char → List Char
  | 0, _, acc => acc
  | fuel + 1, n, acc =>
    let d := Char.ofNat (48 + n % 10)
    if n < 10 then d :: acc else natToCharsAux fuel (n / 10) (d :: acc)

/-- Python `str(n)` for a natural number. -/
def natToChars (n : ℕ) : List Char := natToCharsAux (n + 1) n []

/-- `needle` occurs contiguously inside `haystack`. -/
def containsSub (haystack needle : List Char) : Prop :=
  ∃ a b, haystack = a ++ (needle ++ b)

/-! ## Data model: `ParsedName` (src/utils/name_utils.py) -/

/-- `ParsedName` dataclass. `connectors = None` is normalized to `[]` by
`__post_init__`, so the field is a plain list here. -/
structure ParsedName where
  original : List Char
  firstName : List Char
  lastName : List Char
  middleNames : List (List Char)
  patronymic : Option (List Char) := none
  connectors : List (List Char) := []
  isEasternOrder : Bool := false
deriving DecidableEq

/-! ## `_NameParser` (src/utils/name_utils.py lines 28-114) -/

/-- `_NameParser.CONNECTORS`. -/
def CONNECTORS : List (List Char) :=
  [("bin").data, ("ibn").data, ("bint").data, ("al").data, ("el").data, ("de").data,
   ("del").data, ("de la").data, ("von").data, ("van").data, ("zu").data]

/-- `_NameParser.PATRONYMIC_ENDINGS`. The last entry is the literal (mojibake)
byte sequence present in the source file. -/
def PATRONYMIC_ENDINGS : List (List Char) :=
  [("ovich").data, ("evich").data, ("ovna").data, ("evna").data, ("son").data,
   ("dÃ³ttir").data]

/-- `_NameParser.EASTERN_SURNAMES`. -/
def EASTERN_SURNAMES : List (List Char) :=
  [("Zhang").data, ("Wang").data, ("Li").data, ("Liu").data, ("Chen").data,
   ("Kim").data, ("Park").data, ("Lee").data]

/-- `tokens[1:-1]`: the interior tokens. -/
def interiorTokens (tokens : List (List Char)) : List (List Char) :=
  (tokens.drop 1).dropLast

/-- `_NameParser._is_eastern_order`. -/
def isEasternOrder (tokens : List (List Char)) : Bool :=
  (tokens.length == 2) && EASTERN_SURNAMES.contains (tokens.headD [])

/-- `_NameParser._parse_eastern`. -/
def parseEastern (tokens : List (List Char)) (original : List Char) : ParsedName :=
  { original := original
    firstName := tokens.getLastD []
    lastName := tokens.headD []
    middleNames := if tokens.length > 2 then interiorTokens tokens else []
    isEasternOrder := true }

/-- `_NameParser._parse_western`. `i not in connector_indices` holds exactly
when the interior token at position `i` does not lower-case to a connector,
and `token != patronymic` compares against `None` (always true) or the
detected token, so both loops are filters over the interior tokens. -/
def parseWestern (tokens : List (List Char)) (original : List Char) : ParsedName :=
  let connectors := (interiorTokens tokens).filter (fun t => CONNECTORS.contains (pyLower t))
  let patronymic : Option (List Char) :=
    if tokens.length ≥ 3 then
      let middleToken :=
        if tokens.length == 3 then tokens.getD 1 [] else tokens.getD (tokens.length / 2) []
      if PATRONYMIC_ENDINGS.any (fun ending => pyEndsWith (pyLower middleToken) ending) then
        some middleToken
      else none
    else none
  let middleNames := (interiorTokens tokens).filter
    (fun t => !(CONNECTORS.contains (pyLower t)) && patronymic != some t)
  { original := original
    firstName := tokens.headD []
    lastName := tokens.getLastD []
    middleNames := middleNames
    patronymic := patronymic
    connectors := connectors
    isEasternOrder := false }

/-- `_NameParser.parse`. -/
def nameParse (fullName : List Char) : ParsedName :=
  if pyStrip fullName = [] then
    { original := fullName, firstName := [], lastName := [], middleNames := [] }
  else
    let tokens := pyTokens fullName
    if tokens.length = 0 then
      { original := fullName, firstName := [], lastName := [], middleNames := [] }
    else if tokens.length = 1 then
      { original := fullName, firstName := tokens.headD [], lastName := [], middleNames := [] }
    else if isEasternOrder tokens then parseEastern tokens fullName
    else parseWestern tokens fullName

/-! ## `_NameTruncator` (src/utils/name_utils.py lines 117-209) -/

/-- The `pdfmetrics.stringWidth(text, font_name, font_size)` oracle:
text, font name, size in points ↦ width in points. -/
abbrev WidthOracle := List Char → List Char → ℚ → ℚ

/-- `_NameTruncator` constructor state. -/
structure NameTruncator where
  maxWidthInches : ℚ
  fontName : List Char
  defaultSize : ℚ
  minSize : ℚ

/-- Result of `_NameTruncator.truncate`. -/
structure TruncResult where
  text : List Char
  fontSize : ℚ
  stage : ℕ
deriving DecidableEq

/-- `_NameTruncator._fits_at_size`: width in inches must not exceed the max
width minus an 8% safety margin. -/
def fitsAtSize (W : WidthOracle) (t : NameTruncator) (text : List Char) (size : ℚ) : Bool :=
  decide (W text t.fontName size / 72 ≤ t.maxWidthInches - (8 / 100) * t.maxWidthInches)

/-- Python `int()` (truncation toward zero) on a rational. -/
def pyInt (q : ℚ) : ℤ := if 0 ≤ q then ⌊q⌋ else ⌈q⌉

/-- `range(int(default_size) - 1, int(min_size) - 1, -1)`:
`int(default_size) - 1` down to `int(min_size)`. -/
def sizeLadder (defaultSize minSize : ℚ) : List ℤ :=
  (List.range (pyInt defaultSize - pyInt minSize).toNat).map
    (fun (i : ℕ) => pyInt defaultSize - 1 - (i : ℤ))

/-- The shrink loop shared by stages 1 and 2 of `truncate`: first ladder size
at which `text` fits. -/
def firstFit (W : WidthOracle) (t : NameTruncator) (text : List Char) : Option ℤ :=
  (sizeLadder t.defaultSize t.minSize).find? (fun size => fitsAtSize W t text (size : ℚ))

/-- `_NameTruncator._reconstruct_name`. -/
def reconstructName (parsed : ParsedName) (includeMiddle : Bool) : List Char :=
  if parsed.isEasternOrder then
    if includeMiddle ∧ parsed.middleNames ≠ [] then
      parsed.lastName ++ [' '] ++ List.intercalate ([' ']) parsed.middleNames
        ++ [' '] ++ parsed.firstName
    else parsed.lastName ++ [' '] ++ parsed.firstName
  else
    let parts0 := [parsed.firstName]
    let parts1 :=
      if includeMiddle then
        let withMid := if parsed.middleNames ≠ [] then parts0 ++ parsed.middleNames else parts0
        match parsed.patronymic with
        | some pa => if pa ≠ [] then withMid ++ [pa] else withMid
        | none => withMid
      else parts0
    let parts2 := if parsed.lastName ≠ [] then parts1 ++ [parsed.lastName] else parts1
    List.intercalate ([' ']) parts2

/-- `_NameTruncator._progressive_truncate`. -/
def progressiveTruncate (parsed : ParsedName) : List Char :=
  if parsed.middleNames ≠ [] then reconstructName parsed false
  else if (match parsed.patronymic with | some pa => decide (pa ≠ []) | none => false) then
    parsed.firstName ++ [' '] ++ parsed.lastName
  else if parsed.lastName ≠ [] then
    parsed.firstName ++ [' '] ++ parsed.lastName.take 1 ++ ['.']
  else parsed.firstName

/-- `_NameTruncator.truncate`. -/
def truncate (W : WidthOracle) (t : NameTruncator) (fullName : List Char) : TruncResult :=
  if pyStrip fullName = [] then ⟨fullName, t.defaultSize, 0⟩
  else if fitsAtSize W t fullName t.defaultSize then ⟨fullName, t.defaultSize, 0⟩
  else
    match firstFit W t fullName with
    | some size => ⟨fullName, (size : ℚ), 1⟩
    | none =>
      match firstFit W t (progressiveTruncate (nameParse fullName)) with
      | some size => ⟨progressiveTruncate (nameParse fullName), (size : ℚ), 2⟩
      | none => ⟨progressiveTruncate (nameParse fullName), t.minSize, 2⟩

/-- Result of `get_display_name`. -/
structure DisplayNameResult where
  text : List Char
  fontSize : ℚ
  truncated : Bool
deriving DecidableEq

/-- `get_display_name` (src/utils/name_utils.py lines 212-247). -/
def getDisplayName (W : WidthOracle) (originalName : List Char)
    (maxWidth : ℚ := 27 / 10) (fontFamily : List Char := ("Helvetica").data)
    (defaultFontSize : ℚ := 18) (minFontSize : ℚ := 12) : DisplayNameResult :=
  let result := truncate W ⟨maxWidth, fontFamily, defaultFontSize, minFontSize⟩ originalName
  ⟨result.text, result.fontSize, result.text != originalName⟩

/-! ## Tag row styling (`_calculate_tag_row_styling`,
src/renderers/badge_renderer_html.py lines 191-272) -/

/-- Return shape of `_calculate_tag_row_styling`. -/
structure TagRowStyling where
  fontSize : ℚ
  paddingH : ℚ
  gap : ℚ
deriving DecidableEq

/-- `font_steps = [8, 7.5, 7]`. -/
def fontSteps : List ℚ := [8, 15 / 2, 7]

/-- `padding_steps = [0.12, 0.10, 0.08]`. -/
def paddingSteps : List ℚ := [12 / 100, 10 / 100, 8 / 100]

/-- `gap_steps = [0.08, 0.06, 0.04]`. -/
def gapSteps : List ℚ := [8 / 100, 6 / 100, 4 / 100]

/-- The inner accumulation loop of `_calculate_tag_row_styling`: each tag
contributes `2 × padding_h + stringWidth(tag, "Helvetica", font_size)/72`, with
a `gap` after every tag except the last. -/
def totalRowWidth (W : WidthOracle) (tagValues : List (List Char))
    (fontSize paddingH gap : ℚ) : ℚ :=
  match tagValues with
  | [] => 0
  | [tagText] => paddingH * 2 + W tagText (("Helvetica").data) fontSize / 72
  | tagText :: rest =>
    (paddingH * 2 + W tagText (("Helvetica").data) fontSize / 72) + gap
      + totalRowWidth W rest fontSize paddingH gap

/-- `_calculate_tag_row_styling`: nested search, `font_size` outermost, then
`padding_h`, then `gap`; first fitting combination wins; fallback
`(7, 0.08, 0.04)`; empty input returns the baseline without searching. -/
def calculateTagRowStyling (W : WidthOracle) (tagValues : List (List Char))
    (maxWidth : ℚ := 27 / 10) : TagRowStyling :=
  if tagValues = [] then ⟨8, 12 / 100, 8 / 100⟩
  else
    match fontSteps.findSome? (fun fontSize =>
        paddingSteps.findSome? (fun paddingH =>
          gapSteps.findSome? (fun gap =>
            if totalRowWidth W tagValues fontSize paddingH gap ≤ maxWidth * (93 / 100) then
              some (⟨fontSize, paddingH, gap⟩ : TagRowStyling)
            else none))) with
    | some styling => styling
    | none => ⟨7, 8 / 100, 4 / 100⟩

/-- The 27 `(font_size, padding_h, gap)` combinations in the exact nested
iteration order of the source loops (font size most significant). -/
def tagCombos : List (ℚ × ℚ × ℚ) :=
  fontSteps.flatMap (fun f => paddingSteps.flatMap (fun p => gapSteps.map (fun g => (f, p, g))))

/-! ## Micro-tag validation (`_validate_micro_tag`,
src/renderers/badge_renderer_html.py lines 173-189) -/

/-- `_validate_micro_tag`: raises `ValueError` when the value exceeds
`max_chars` characters; the embedded message is the source f-string. -/
def validateMicroTag (categoryName value : List Char) (maxChars : ℕ := 5) :
    Except (List Char) Unit :=
  if value.length > maxChars then
    Except.error
      (("Micro-tag '").data ++ categoryName ++ ("' value '").data ++ value
        ++ ("' exceeds ").data ++ natToChars maxChars ++ (" character limit (").data
        ++ natToChars value.length
        ++ (" chars). Micro-tags must be ≤").data ++ natToChars maxChars
        ++ (" chars for circular display.").data)
  else Except.ok ()

/-! ## Vertical flow layout (`_prepare_badge_html`,
src/renderers/badge_renderer_html.py lines 345-413) -/

/-- The interests-band placement computed by `_prepare_badge_html`. -/
structure VerticalFlowLayout where
  interestsTop : ℚ
  scaledHeight : ℚ
  scaledWidth : ℚ
  leftOffset : ℚ
  interestsBottom : ℚ
deriving DecidableEq

/-- Title block height in inches for a given line count (`title_font_pt = 10.0`,
`title_line_height = 1.2`; anything other than 0 or 1 lines is the 2-line case,
mirroring the source `if/elif/else`). -/
def titleBlockHeight (titleLines : ℕ) : ℚ :=
  if titleLines = 0 then 0
  else if titleLines = 1 then 10 * (12 / 10) / 72
  else 10 * (12 / 10) * 2 / 72

/-- The interests-band layout cascade of `_prepare_badge_html` as a function of
the title line count. -/
def verticalFlow (titleLines : ℕ) : VerticalFlowLayout :=
  let professionalTop : ℚ := 183 / 100
  let companyHeight : ℚ := 9 * (12 / 10) / 72
  let companyMarginTop : ℚ := 4 / 100
  let totalContentHeight := titleBlockHeight titleLines + companyMarginTop + companyHeight
  let professionalBottom := professionalTop + totalContentHeight
  let desiredGap : ℚ := 10 / 100
  let interestsTop := professionalBottom + desiredGap
  let badgeHeight : ℚ := 4
  let interestsBandHeight : ℚ := 135 / 100
  let bottomTagsTop : ℚ := 362 / 100
  let minGapToTags : ℚ := 10 / 100
  let maxInterestsBottomEdge := bottomTagsTop - minGapToTags
  let availableHeight := maxInterestsBottomEdge - interestsTop
  if availableHeight < interestsBandHeight then
    let scaleFactor := availableHeight / interestsBandHeight
    let scaledHeight := availableHeight
    let scaledWidth := (27 / 10) * scaleFactor
    ⟨interestsTop, scaledHeight, scaledWidth, ((27 / 10) - scaledWidth) / 2,
      badgeHeight - interestsTop - scaledHeight⟩
  else
    ⟨interestsTop, interestsBandHeight, 27 / 10, 0,
      badgeHeight - interestsTop - interestsBandHeight⟩

/-! ## Location parsing (`LocationParser`,
src/location/location_renderer.py lines 37-103) -/

/-- `ParsedLocation` dataclass. -/
structure ParsedLocation where
  original : List Char
  city : List Char
  region : Option (List Char) := none
  country : Option (List Char) := none
deriving DecidableEq

/-- `LocationParser.US_STATES` (exact, case-sensitive membership). -/
def US_STATES : List (List Char) :=
  [("AL").data, ("AK").data, ("AZ").data, ("AR").data, ("CA").data, ("CO").data,
   ("CT").data, ("DE").data, ("FL").data, ("GA").data,
   ("HI").data, ("ID").data, ("IL").data, ("IN").data, ("IA").data, ("KS").data,
   ("KY").data, ("LA").data, ("ME").data, ("MD").data,
   ("MA").data, ("MI").data, ("MN").data, ("MS").data, ("MO").data, ("MT").data,
   ("NE").data, ("NV").data, ("NH").data, ("NJ").data,
   ("NM").data, ("NY").data, ("NC").data, ("ND").data, ("OH").data, ("OK").data,
   ("OR").data, ("PA").data, ("RI").data, ("SC").data,
   ("SD").data, ("TN").data, ("TX").data, ("UT").data, ("VT").data, ("VA").data,
   ("WA").data, ("WV").data, ("WI").data, ("WY").data, ("DC").data,
   ("Alabama").data, ("Alaska").data, ("Arizona").data, ("Arkansas").data,
   ("California").data, ("Colorado").data, ("Connecticut").data, ("Delaware").data,
   ("Florida").data, ("Georgia").data, ("Hawaii").data, ("Idaho").data,
   ("Illinois").data, ("Indiana").data, ("Iowa").data, ("Kansas").data,
   ("Kentucky").data, ("Louisiana").data, ("Maine").data, ("Maryland").data,
   ("Massachusetts").data, ("Michigan").data, ("Minnesota").data, ("Mississippi").data,
   ("Missouri").data, ("Montana").data, ("Nebraska").data, ("Nevada").data,
   ("New Hampshire").data, ("New Jersey").data, ("New Mexico").data,
   ("New York").data, ("North Carolina").data, ("North Dakota").data, ("Ohio").data,
   ("Oklahoma").data, ("Oregon").data, ("Pennsylvania").data, ("Rhode Island").data,
   ("South Carolina").data, ("South Dakota").data, ("Tennessee").data, ("Texas").data,
   ("Utah").data, ("Vermont").data, ("Virginia").data, ("Washington").data,
   ("West Virginia").data, ("Wisconsin").data, ("Wyoming").data,
   ("District of Columbia").data]

/-- `LocationParser.parse`: comma-split with per-part strip, then branch on the
part count exactly as the source does (the `[]` branch is the source's
unreachable final `return`). -/
def locationParse (locationStr : List Char) : ParsedLocation :=
  match (pySplitComma locationStr).map pyStrip with
  | [] => { original := locationStr, city := locationStr }
  | [city] => { original := locationStr, city := city }
  | [city, second] =>
    if second ∈ US_STATES then
      { original := locationStr, city := city, region := some second,
        country := some (("United States").data) }
    else
      { original := locationStr, city := city, country := some second }
  | city :: region :: country :: _ =>
    { original := locationStr, city := city, region := some region,
      country := some country }

/-! ## Coordinate transformer (`CoordinateTransformer`,
src/location/location_renderer.py lines 281-338). The shapely boundary is
consumed only through `boundary.bounds`, so the embedding takes the bounding
box `(minx, miny, maxx, maxy)` directly. -/

structure CoordinateTransformer where
  canvasWidth : ℚ
  canvasHeight : ℚ
  minx : ℚ
  miny : ℚ
  maxx : ℚ
  maxy : ℚ
  scale : ℚ
  offsetX : ℚ
  offsetY : ℚ
deriving DecidableEq

/-- `CoordinateTransformer.__init__` (`padding_ratio = 0.1`). -/
def mkCoordinateTransformer (bounds : ℚ × ℚ × ℚ × ℚ) (canvasSize : ℚ × ℚ) :
    CoordinateTransformer :=
  let minx := bounds.1
  let miny := bounds.2.1
  let maxx := bounds.2.2.1
  let maxy := bounds.2.2.2
  let canvasWidth := canvasSize.1
  let canvasHeight := canvasSize.2
  let paddingRatio : ℚ := 1 / 10
  let geoWidth := maxx - minx
  let geoHeight := maxy - miny
  let scaleX := canvasWidth * (1 - 2 * paddingRatio) / geoWidth
  let scaleY := canvasHeight * (1 - 2 * paddingRatio) / geoHeight
  let scale := min scaleX scaleY
  let scaledWidth := geoWidth * scale
  let scaledHeight := geoHeight * scale
  { canvasWidth := canvasWidth, canvasHeight := canvasHeight,
    minx := minx, miny := miny, maxx := maxx, maxy := maxy,
    scale := scale,
    offsetX := (canvasWidth - scaledWidth) / 2,
    offsetY := (canvasHeight - scaledHeight) / 2 }

/-- `CoordinateTransformer.geo_to_pixel` (Y axis flipped). -/
def geoToPixel (t : CoordinateTransformer) (lon lat : ℚ) : ℚ × ℚ :=
  let normX := if t.maxx ≠ t.minx then (lon - t.minx) / (t.maxx - t.minx) else 1 / 2
  let normY := if t.maxy ≠ t.miny then (t.maxy - lat) / (t.maxy - t.miny) else 1 / 2
  (normX * (t.maxx - t.minx) * t.scale + t.offsetX,
   normY * (t.maxy - t.miny) * t.scale + t.offsetY)

/-! ## General helper lemmas -/

/-- `_fits_at_size` is exactly the 92%-of-max-width bound. -/
theorem fitsAtSize_true_iff (W : WidthOracle) (t : NameTruncator) (text : List Char) (size : ℚ) :
    fitsAtSize W t text size = true ↔
      W text t.fontName size / 72 ≤ (92 / 100) * t.maxWidthInches := by
  simp only [fitsAtSize, decide_eq_true_eq]
  constructor <;> intro h <;> linarith

/-- Tokenizing an all-whitespace string yields no tokens. -/
theorem splitWsAux_eq_nil_of_all_ws :
    ∀ l : List Char, (∀ c ∈ l, c.isWhitespace = true) → splitWsAux l [] = []
  | [], _ => rfl
  | c :: cs, h => by
    have hc := h c (by simp)
    simp only [splitWsAux, hc, if_true, if_pos rfl]
    exact splitWsAux_eq_nil_of_all_ws cs (fun x hx => h x (by simp [hx]))

/-- If `strip` empties a string, every character is whitespace. -/
theorem all_ws_of_pyStrip_eq_nil {l : List Char} (h : pyStrip l = []) :
    ∀ c ∈ l, c.isWhitespace = true := by
  unfold pyStrip at h
  rw [List.reverse_eq_nil_iff, List.dropWhile_eq_nil_iff] at h
  have hdrop : ∀ c ∈ l.dropWhile Char.isWhitespace, c.isWhitespace = true := by
    intro c hc
    exact h c (List.mem_reverse.mpr hc)
  intro c hc
  rw [← List.takeWhile_append_dropWhile (p := Char.isWhitespace) (l := l)] at hc
  rcases List.mem_append.mp hc with htake | hdrop'
  · exact List.mem_takeWhile_imp htake
  · exact hdrop c hdrop'

/-- A string whose `strip` is empty has no tokens. -/
theorem pyTokens_eq_nil_of_pyStrip_eq_nil {l : List Char} (h : pyStrip l = []) :
    pyTokens l = [] :=
  splitWsAux_eq_nil_of_all_ws l (all_ws_of_pyStrip_eq_nil h)

/-- A string with at least one token does not strip to empty. -/
theorem pyStrip_ne_nil_of_tokens {l : List Char} (h : pyTokens l ≠ []) :
    pyStrip l ≠ [] :=
  fun hs => h (pyTokens_eq_nil_of_pyStrip_eq_nil hs)

/-- `findSome?` of a guarded `some` is `find?` followed by `map`. -/
theorem findSome?_dite_eq {α β : Type} (P : α → Prop) [DecidablePred P] (g : α → β) :
    ∀ C : List α,
      C.findSome? (fun c => if P c then some (g c) else none)
        = (C.find? (fun c => decide (P c))).map g
  | [] => rfl
  | c :: cs => by
    by_cases h : P c
    · simp [List.findSome?_cons, h]
    · simp [List.findSome?_cons, h, findSome?_dite_eq P g cs]

/-- `Option.map` commutes with `findSome?`. -/
theorem findSome?_map_option {α β γ : Type} (F : α → Option β) (g : β → γ) :
    ∀ A : List α, A.findSome? (fun a => (F a).map g) = (A.findSome? F).map g
  | [] => rfl
  | a :: as => by
    cases h : F a <;> simp [List.findSome?_cons, h, findSome?_map_option F g as]

/-- On a strictly decreasing list, `find?` returns the greatest element
satisfying the predicate. -/
theorem find?_sorted_is_max {l : List ℤ} (hl : l.Pairwise (· > ·)) {p : ℤ → Bool} {a : ℤ}
    (h : l.find? p = some a) : ∀ b ∈ l, p b = true → b ≤ a := by
  induction l with
  | nil => simp at h
  | cons c cs ih =>
    rw [List.pairwise_cons] at hl
    by_cases hc : p c = true
    · rw [List.find?_cons_of_pos _ hc] at h
      injection h with h
      subst h
      intro b hb hpb
      rcases List.mem_cons.mp hb with hb | hb
      · exact le_of_eq hb
      · exact le_of_lt (hl.1 b hb)
    · rw [List.find?_cons_of_neg _ hc] at h
      intro b hb hpb
      rcases List.mem_cons.mp hb with hb | hb
      · exact absurd (hb ▸ hpb) hc
      · exact ih hl.2 h b hb hpb

/-- The size ladder is strictly decreasing. -/
theorem sizeLadder_pairwise (defaultSize minSize : ℚ) :
    (sizeLadder defaultSize minSize).Pairwise (· > ·) := by
  unfold sizeLadder
  rw [List.pairwise_map]
  refine (List.pairwise_lt_range _).imp ?_
  intro a b h
  omega

/-! ## C7: micro-tag validation -/

/-- C7: micro-tag validation errors exactly when the value exceeds 5
characters; the error message contains the category name, the value, the
character count and the limit "5"; 5 or fewer characters validate to `ok`. -/
theorem micro_tag_validation_iff (categoryName value : List Char) :
    ((∃ msg, validateMicroTag categoryName value 5 = Except.error msg
        ∧ containsSub msg categoryName
        ∧ containsSub msg value
        ∧ containsSub msg (natToChars value.length)
        ∧ containsSub msg (("5").data))
      ↔ 5 < value.length)
    ∧ (value.length ≤ 5 → validateMicroTag categoryName value 5 = Except.ok ()) := by
  have hm5 : natToChars 5 = ("5").data := by decide
  constructor
  · constructor
    · rintro ⟨msg, hmsg, -⟩
      by_contra hlen
      rw [validateMicroTag, if_neg hlen] at hmsg
      exact Except.noConfusion hmsg
    · intro hlen
      refine ⟨_, by rw [validateMicroTag, if_pos hlen], ?_, ?_, ?_, ?_⟩
      · exact ⟨("Micro-tag '").data,
          ("' value '").data ++ value ++ ("' exceeds ").data ++ natToChars 5
            ++ (" character limit (").data ++ natToChars value.length
            ++ (" chars). Micro-tags must be ≤").data ++ natToChars 5
            ++ (" chars for circular display.").data,
          by simp [List.append_assoc]⟩
      · exact ⟨("Micro-tag '").data ++ categoryName ++ ("' value '").data,
          ("' exceeds ").data ++ natToChars 5 ++ (" character limit (").data
            ++ natToChars value.length ++ (" chars). Micro-tags must be ≤").data
            ++ natToChars 5 ++ (" chars for circular display.").data,
          by simp [List.append_assoc]⟩
      · exact ⟨("Micro-tag '").data ++ categoryName ++ ("' value '").data ++ value
            ++ ("' exceeds ").data ++ natToChars 5 ++ (" character limit (").data,
          (" chars). Micro-tags must be ≤").data ++ natToChars 5
            ++ (" chars for circular display.").data,
          by simp [List.append_assoc]⟩
      · exact ⟨("Micro-tag '").data ++ categoryName ++ ("' value '").data ++ value
            ++ ("' exceeds ").data,
          (" character limit (").data ++ natToChars value.length
            ++ (" chars). Micro-tags must be ≤").data ++ natToChars 5
            ++ (" chars for circular display.").data,
          by simp [hm5, List.append_assoc]⟩
  · intro h
    rw [validateMicroTag, if_neg (by omega)]

/-- C7 witness: "Premier" (7 chars) is rejected with the documented message
contents; "Gold" (4 chars) passes. -/
theorem micro_tag_validation_witness :
    (5 < (("Premier").data).length
      ∧ (∃ msg, validateMicroTag (("Membership").data) (("Premier").data) 5 = Except.error msg
          ∧ containsSub msg (("Membership").data)
          ∧ containsSub msg (("Premier").data)
          ∧ containsSub msg (natToChars (("Premier").data).length)
          ∧ containsSub msg (("5").data)))
    ∧ ((("Gold").data).length ≤ 5
      ∧ validateMicroTag (("Membership").data) (("Gold").data) 5 = Except.ok ()) :=
  ⟨⟨by decide, (micro_tag_validation_iff (("Membership").data) (("Premier").data)).1.mpr
      (by decide)⟩,
   ⟨by decide, (micro_tag_validation_iff (("Membership").data) (("Gold").data)).2 (by decide)⟩⟩

/-! ## C1: truncation fit invariant -/

/-- C1: for every name that survives the emptiness guard, the truncation
result fits within `0.92 × max_width` in width-oracle units, except in the
stage-2 best-effort fallback (reduced text at `min_size`); and a name that
already fits at `default_size` is returned unchanged at stage 0. -/
theorem truncate_fit_invariant (W : WidthOracle) (t : NameTruncator) (name : List Char)
    (hne : pyStrip name ≠ []) :
    (W (truncate W t name).text t.fontName (truncate W t name).fontSize / 72
        ≤ (92 / 100) * t.maxWidthInches
      ∨ ((truncate W t name).stage = 2 ∧ (truncate W t name).fontSize = t.minSize))
    ∧ (fitsAtSize W t name t.defaultSize = true →
        truncate W t name = ⟨name, t.defaultSize, 0⟩) := by
  unfold truncate
  rw [if_neg hne]
  by_cases hfit : fitsAtSize W t name t.defaultSize
  · rw [if_pos hfit]
    exact ⟨Or.inl ((fitsAtSize_true_iff W t name t.defaultSize).mp hfit), fun _ => rfl⟩
  · rw [if_neg hfit]
    refine ⟨?_, fun h => absurd h hfit⟩
    cases h1 : firstFit W t name with
    | some size =>
      left
      have hp := List.find?_some h1
      exact (fitsAtSize_true_iff W t name (size : ℚ)).mp hp
    | none =>
      cases h2 : firstFit W t (progressiveTruncate (nameParse name)) with
      | some size =>
        left
        have hp := List.find?_some h2
        exact (fitsAtSize_true_iff W t _ (size : ℚ)).mp hp
      | none => exact Or.inr ⟨rfl, rfl⟩

/-- A width oracle that reports zero width for everything. -/
def zeroOracle : WidthOracle := fun _ _ _ => 0

/-- The truncator constraints used by `_prepare_badge_html`
(2.7in, Helvetica, 18pt → 12pt). -/
def truncDefault : NameTruncator := ⟨27 / 10, ("Helvetica").data, 18, 12⟩

/-- C1 witness at a concrete fitting name. -/
theorem truncate_fit_invariant_witness :
    pyStrip (("Bob").data) ≠ []
    ∧ ((zeroOracle (truncate zeroOracle truncDefault (("Bob").data)).text
          truncDefault.fontName (truncate zeroOracle truncDefault (("Bob").data)).fontSize / 72
          ≤ (92 / 100) * truncDefault.maxWidthInches
        ∨ ((truncate zeroOracle truncDefault (("Bob").data)).stage = 2
            ∧ (truncate zeroOracle truncDefault (("Bob").data)).fontSize
                = truncDefault.minSize))
      ∧ (fitsAtSize zeroOracle truncDefault (("Bob").data) truncDefault.defaultSize = true →
          truncate zeroOracle truncDefault (("Bob").data)
            = ⟨("Bob").data, truncDefault.defaultSize, 0⟩)) :=
  ⟨by decide, truncate_fit_invariant zeroOracle truncDefault (("Bob").data) (by decide)⟩

/-! ## C10: empty / whitespace-only input -/

/-- C10: empty or whitespace-only input passes through `truncate` unchanged at
`default_size`, stage 0, for every width oracle and constraint set (so no
width is ever measured), and `get_display_name` reports `truncated = false`. -/
theorem blank_name_passthrough (W : WidthOracle) (name : List Char)
    (maxWidth fontSizeDefault fontSizeMin : ℚ) (fontFamily : List Char)
    (hblank : pyStrip name = []) :
    truncate W ⟨maxWidth, fontFamily, fontSizeDefault, fontSizeMin⟩ name
        = ⟨name, fontSizeDefault, 0⟩
    ∧ (getDisplayName W name maxWidth fontFamily fontSizeDefault fontSizeMin).truncated
        = false := by
  constructor
  · unfold truncate
    rw [if_pos hblank]
  · unfold getDisplayName
    unfold truncate
    rw [if_pos hblank]
    simp

/-- C10 witness at the whitespace-only name `"  "`. -/
theorem blank_name_passthrough_witness :
    pyStrip (("  ").data) = []
    ∧ (truncate zeroOracle ⟨27 / 10, ("Helvetica").data, 18, 12⟩ (("  ").data)
          = ⟨("  ").data, 18, 0⟩
        ∧ (getDisplayName zeroOracle (("  ").data) (27 / 10) (("Helvetica").data) 18
              12).truncated = false) :=
  ⟨by decide,
   blank_name_passthrough zeroOracle (("  ").data) (27 / 10) 18 12 (("Helvetica").data)
     (by decide)⟩

/-! ## C3: stage-2 behaviour -/

/-- Width oracle for the stage-2 analysis: the full name "Ann Bee Cee" is
immeasurably wide, every other string has zero width. -/
def oracleCex : WidthOracle :=
  fun text _ _ => if text = ("Ann Bee Cee").data then 10000 else 0

/-- Under `oracleCex`, the full name never fits at any size. -/
theorem oracleCex_full_never_fits (size : ℚ) :
    fitsAtSize oracleCex truncDefault (("Ann Bee Cee").data) size = false := by
  simp only [fitsAtSize, oracleCex, truncDefault, if_pos, decide_eq_false_iff_not]
  norm_num

/-- Under `oracleCex`, the reduced name fits at every size. -/
theorem oracleCex_red_always_fits (size : ℚ) :
    fitsAtSize oracleCex truncDefault (("Ann Cee").data) size = true := by
  simp only [fitsAtSize, oracleCex, truncDefault, decide_eq_true_eq]
  rw [if_neg (by decide)]
  norm_num

/-- The size ladder for the default 18pt → 12pt constraints. -/
theorem truncDefault_ladder :
    sizeLadder truncDefault.defaultSize truncDefault.minSize = [17, 16, 15, 14, 13, 12] := by
  have h18 : pyInt 18 = 18 := by norm_num [pyInt]
  have h12 : pyInt 12 = 12 := by norm_num [pyInt]
  simp only [sizeLadder, truncDefault, h18, h12]
  decide

/-- No ladder size fits the full counterexample name. -/
theorem oracleCex_firstFit_full :
    firstFit oracleCex truncDefault (("Ann Bee Cee").data) = none := by
  rw [firstFit, truncDefault_ladder]
  refine List.find?_eq_none.mpr ?_
  intro x hx
  show ¬ fitsAtSize oracleCex truncDefault (("Ann Bee Cee").data) (x : ℚ) = true
  rw [oracleCex_full_never_fits]
  exact Bool.false_ne_true

/-- The first (largest) ladder size, 17, fits the reduced name. -/
theorem oracleCex_firstFit_red :
    firstFit oracleCex truncDefault (("Ann Cee").data) = some 17 := by
  rw [firstFit, truncDefault_ladder]
  exact List.find?_cons_of_pos _ (oracleCex_red_always_fits _)

/-- One structural reduction on "Ann Bee Cee" drops the middle name. -/
theorem progressiveTruncate_annbeecee :
    progressiveTruncate (nameParse (("Ann Bee Cee").data)) = ("Ann Cee").data := by decide

/-- Full evaluation of the stage-2 counterexample run. -/
theorem truncate_cex_eval :
    truncate oracleCex truncDefault (("Ann Bee Cee").data)
      = ⟨("Ann Cee").data, 17, 2⟩ := by
  unfold truncate
  rw [if_neg (by decide),
    if_neg (by rw [oracleCex_full_never_fits]; exact Bool.false_ne_true),
    oracleCex_firstFit_full, progressiveTruncate_annbeecee, oracleCex_firstFit_red]
  norm_num

/-- C3 counterexample: the structurally-reduced text "Ann Cee" fits at the
default size 18, yet `truncate` returns it at 17 (the top of the stage-1
ladder) — stage 2 never re-tries `default_size`, contradicting the claim. -/
theorem truncate_stage2_skips_default_size_cex :
    progressiveTruncate (nameParse (("Ann Bee Cee").data)) = ("Ann Cee").data
    ∧ fitsAtSize oracleCex truncDefault (("Ann Cee").data) truncDefault.defaultSize = true
    ∧ truncate oracleCex truncDefault (("Ann Bee Cee").data)
        = ⟨("Ann Cee").data, 17, 2⟩
    ∧ (17 : ℚ) ≠ truncDefault.defaultSize :=
  ⟨progressiveTruncate_annbeecee, oracleCex_red_always_fits _, truncate_cex_eval,
   by norm_num [truncDefault]⟩

/-- C3 (amended): when stage 2 is reached, the result text is the one-step
structurally-reduced name at stage 2; only the integer ladder
`int(default_size)-1 … int(min_size)` is re-tried (in decreasing order, so the
first hit is the greatest fitting ladder size — `default_size` itself is not
re-tried); if no ladder size fits, the reduced text is returned at `min_size`.
`truncate` is total, so it never raises. -/
theorem truncate_stage2_ladder (W : WidthOracle) (t : NameTruncator) (name : List Char)
    (h1 : pyStrip name ≠ [])
    (h2 : fitsAtSize W t name t.defaultSize = false)
    (h3 : firstFit W t name = none) :
    ((truncate W t name).text = progressiveTruncate (nameParse name)
      ∧ (truncate W t name).stage = 2)
    ∧ (∀ size : ℤ, firstFit W t (progressiveTruncate (nameParse name)) = some size →
        (truncate W t name).fontSize = (size : ℚ)
        ∧ size ∈ sizeLadder t.defaultSize t.minSize
        ∧ fitsAtSize W t (progressiveTruncate (nameParse name)) (size : ℚ) = true
        ∧ ∀ other ∈ sizeLadder t.defaultSize t.minSize,
            fitsAtSize W t (progressiveTruncate (nameParse name)) (other : ℚ) = true →
              other ≤ size)
    ∧ (firstFit W t (progressiveTruncate (nameParse name)) = none →
        (truncate W t name).fontSize = t.minSize) := by
  unfold truncate
  rw [if_neg h1, if_neg (by simp [h2]), h3]
  cases h4 : firstFit W t (progressiveTruncate (nameParse name)) with
  | some size =>
    refine ⟨⟨rfl, rfl⟩, ?_, ?_⟩
    · intro s hs
      injection hs with hs
      subst hs
      unfold firstFit at h4
      have hfits := List.find?_some h4
      refine ⟨rfl, List.mem_of_find?_eq_some h4, hfits, ?_⟩
      exact fun other hmem hfits =>
        find?_sorted_is_max (sizeLadder_pairwise t.defaultSize t.minSize) h4 other hmem hfits
    · intro hnone
      exact Option.noConfusion hnone
  | none =>
    refine ⟨⟨rfl, rfl⟩, ?_, fun _ => rfl⟩
    intro s hs
    exact Option.noConfusion hs

/-- C3 witness: the counterexample run satisfies all stage-2 hypotheses. -/
theorem truncate_stage2_ladder_witness :
    (pyStrip (("Ann Bee Cee").data) ≠ []
      ∧ fitsAtSize oracleCex truncDefault (("Ann Bee Cee").data) truncDefault.defaultSize
          = false
      ∧ firstFit oracleCex truncDefault (("Ann Bee Cee").data) = none)
    ∧ ((truncate oracleCex truncDefault (("Ann Bee Cee").data)).text
          = progressiveTruncate (nameParse (("Ann Bee Cee").data))
        ∧ (truncate oracleCex truncDefault (("Ann Bee Cee").data)).stage = 2) :=
  ⟨⟨by decide, oracleCex_full_never_fits _, oracleCex_firstFit_full⟩,
   (truncate_stage2_ladder oracleCex truncDefault (("Ann Bee Cee").data) (by decide)
      (oracleCex_full_never_fits _) oracleCex_firstFit_full).1⟩

/-! ## C5: Eastern-order parsing and round trip -/

/-- C5: any two-token name whose first token is in the Eastern family-name set
parses family-name-first, and "Zhang Wei" round-trips through reconstruction
with middle names omitted. -/
theorem eastern_order_parse_round_trip :
    (∀ (name tok0 tok1 : List Char), pyTokens name = [tok0, tok1] →
        tok0 ∈ EASTERN_SURNAMES →
        nameParse name = { original := name, firstName := tok1, lastName := tok0,
                           middleNames := [], isEasternOrder := true })
    ∧ nameParse (("Zhang Wei").data)
        = { original := ("Zhang Wei").data, firstName := ("Wei").data,
            lastName := ("Zhang").data, middleNames := [], isEasternOrder := true }
    ∧ reconstructName (nameParse (("Zhang Wei").data)) false = ("Zhang Wei").data := by
  refine ⟨?_, by decide, by decide⟩
  intro name tok0 tok1 htok hmem
  have hstrip : pyStrip name ≠ [] :=
    pyStrip_ne_nil_of_tokens (fun h => by rw [htok] at h; exact List.noConfusion h)
  unfold nameParse
  rw [if_neg hstrip, htok]
  have heast : isEasternOrder [tok0, tok1] = true := by
    simp only [isEasternOrder, List.headD_cons, List.length_cons, List.length_nil]
    simp [hmem]
  rw [if_neg (by simp), if_neg (by simp), if_pos heast]
  rfl

/-- C5 witness: the general clause applied to the concrete "Zhang Wei". -/
theorem eastern_order_parse_witness :
    (pyTokens (("Zhang Wei").data) = [("Zhang").data, ("Wei").data]
      ∧ ("Zhang").data ∈ EASTERN_SURNAMES)
    ∧ nameParse (("Zhang Wei").data)
        = { original := ("Zhang Wei").data, firstName := ("Wei").data,
            lastName := ("Zhang").data, middleNames := [], isEasternOrder := true } :=
  ⟨⟨by decide, by decide⟩,
   eastern_order_parse_round_trip.1 (("Zhang Wei").data) (("Zhang").data) (("Wei").data)
     (by decide) (by decide)⟩

/-! ## C6: patronymic detection (corrected) -/

/-- C6 counterexample: in "Ivan Petrovich Xy Smith" the interior token
"Petrovich" carries a patronymic ending, yet no patronymic is detected (only
the middle-index token "Xy" is examined) and "Petrovich" stays in
`middle_names` — the claimed scan over all interior tokens does not happen. -/
theorem patronymic_not_scanned_cex :
    (∃ tk ∈ interiorTokens (pyTokens (("Ivan Petrovich Xy Smith").data)),
        PATRONYMIC_ENDINGS.any (fun ending => pyEndsWith (pyLower tk) ending) = true)
    ∧ (nameParse (("Ivan Petrovich Xy Smith").data)).patronymic = none
    ∧ (nameParse (("Ivan Petrovich Xy Smith").data)).middleNames
        = [("Petrovich").data, ("Xy").data] :=
  ⟨⟨("Petrovich").data, by decide, by decide⟩, by decide, by decide⟩

/-- The structurally middle token of a ≥3-token list is an interior token. -/
theorem middle_token_mem_interior (ts : List (List Char)) (h : 3 ≤ ts.length) :
    ts.getD (ts.length / 2) [] ∈ interiorTokens ts := by
  have hilen : ts.length / 2 < ts.length := by omega
  have hgetD : ts.getD (ts.length / 2) [] = ts[ts.length / 2] :=
    List.getD_eq_getElem ts [] hilen
  have hlen2 : ts.length / 2 - 1 < (interiorTokens ts).length := by
    simp [interiorTokens]
    omega
  have hElem : (interiorTokens ts).get ⟨ts.length / 2 - 1, hlen2⟩ = ts[ts.length / 2] := by
    simp only [List.get_eq_getElem, interiorTokens, List.getElem_dropLast, List.getElem_drop]
    congr 1
    omega
  rw [hgetD, ← hElem]
  exact List.get_mem _ _ _

/-- C6 (amended): for a Western-order name of three or more tokens, patronymic
detection examines only the structurally middle token — index 1 for 3-token
names and index `len // 2` otherwise, which coincide at 3 tokens — making it
the patronymic iff its lowercase form ends with one of the closed endings;
`middle_names` are exactly the interior tokens that neither lower-case to a
connector nor equal the detected patronymic, in original order (a sublist of
the interior tokens); any detected patronymic is an interior token with a
matching ending. -/
theorem patronymic_middle_token_rule (name : List Char)
    (hlen : 3 ≤ (pyTokens name).length) :
    ((nameParse name).patronymic =
      (if PATRONYMIC_ENDINGS.any (fun ending =>
            pyEndsWith (pyLower ((pyTokens name).getD ((pyTokens name).length / 2) []))
              ending) = true
        then some ((pyTokens name).getD ((pyTokens name).length / 2) [])
        else none))
    ∧ (nameParse name).middleNames
        = (interiorTokens (pyTokens name)).filter
            (fun tk => !(CONNECTORS.contains (pyLower tk))
              && (nameParse name).patronymic != some tk)
    ∧ List.Sublist (nameParse name).middleNames (interiorTokens (pyTokens name))
    ∧ (∀ p, (nameParse name).patronymic = some p →
        p ∈ interiorTokens (pyTokens name)
        ∧ PATRONYMIC_ENDINGS.any (fun ending => pyEndsWith (pyLower p) ending) = true) := by
  have hstrip : pyStrip name ≠ [] :=
    pyStrip_ne_nil_of_tokens (fun h => by rw [h] at hlen; exact absurd hlen (by decide))
  have hwest : nameParse name = parseWestern (pyTokens name) name := by
    unfold nameParse
    rw [if_neg hstrip, if_neg (by omega), if_neg (by omega),
      if_neg (by simp [isEasternOrder]; omega)]
  have hmid : (if (pyTokens name).length == 3 then (pyTokens name).getD 1 []
        else (pyTokens name).getD ((pyTokens name).length / 2) [])
      = (pyTokens name).getD ((pyTokens name).length / 2) [] := by
    by_cases h3 : (pyTokens name).length = 3
    · rw [h3]
      simp
    · rw [if_neg (by simpa using h3)]
  have hpat : (nameParse name).patronymic =
      (if PATRONYMIC_ENDINGS.any (fun ending =>
            pyEndsWith (pyLower ((pyTokens name).getD ((pyTokens name).length / 2) []))
              ending) = true
        then some ((pyTokens name).getD ((pyTokens name).length / 2) [])
        else none) := by
    rw [hwest]
    simp only [parseWestern, hmid, if_pos hlen]
  refine ⟨hpat, ?_, ?_, ?_⟩
  · rw [hpat, hwest]
    simp only [parseWestern, hmid, if_pos hlen]
  · rw [hwest]
    simp only [parseWestern]
    exact List.filter_sublist _
  · intro p hp
    rw [hpat] at hp
    by_cases hany : PATRONYMIC_ENDINGS.any (fun ending =>
        pyEndsWith (pyLower ((pyTokens name).getD ((pyTokens name).length / 2) []))
          ending) = true
    · rw [if_pos hany] at hp
      injection hp with hp
      subst hp
      exact ⟨middle_token_mem_interior _ hlen, hany⟩
    · rw [if_neg hany] at hp
      exact Option.noConfusion hp

/-- C6 witness: the amended rule on the 3-token "Ivan Petrovich Smith". -/
theorem patronymic_middle_token_witness :
    3 ≤ (pyTokens (("Ivan Petrovich Smith").data)).length
    ∧ (nameParse (("Ivan Petrovich Smith").data)).patronymic =
        (if PATRONYMIC_ENDINGS.any (fun ending =>
              pyEndsWith (pyLower ((pyTokens (("Ivan Petrovich Smith").data)).getD
                  ((pyTokens (("Ivan Petrovich Smith").data)).length / 2) [])) ending) = true
          then some ((pyTokens (("Ivan Petrovich Smith").data)).getD
              ((pyTokens (("Ivan Petrovich Smith").data)).length / 2) [])
          else none) :=
  ⟨by decide, (patronymic_middle_token_rule (("Ivan Petrovich Smith").data) (by decide)).1⟩

/-! ## C2: tag-row styling search -/

/-- The nested `font × padding × gap` search equals a linear first-fit scan
over the 27 combinations in nested iteration order. -/
theorem calculateTagRowStyling_split (W : WidthOracle) (tagValues : List (List Char))
    (maxWidth : ℚ) :
    fontSteps.findSome? (fun fontSize => paddingSteps.findSome? (fun paddingH =>
        gapSteps.findSome? (fun gap =>
          if totalRowWidth W tagValues fontSize paddingH gap ≤ maxWidth * (93 / 100) then
            some (⟨fontSize, paddingH, gap⟩ : TagRowStyling)
          else none)))
      = (tagCombos.find? (fun c =>
            decide (totalRowWidth W tagValues c.1 c.2.1 c.2.2 ≤ maxWidth * (93 / 100)))).map
          (fun c => (⟨c.1, c.2.1, c.2.2⟩ : TagRowStyling)) := by
  rw [tagCombos, List.find?_flatMap, ← findSome?_map_option]
  congr 1
  funext f
  rw [List.find?_flatMap, ← findSome?_map_option]
  congr 1
  funext p
  rw [List.find?_map, findSome?_dite_eq, Option.map_map]
  rfl

/-- C2: for a non-empty tag list, `_calculate_tag_row_styling` returns the
first of the 27 `(font_size, padding_h, gap)` combinations — in the fixed
nested order with font size outermost, then padding, then gap — whose total
row width is within `0.93 × max_width`, and the most aggressive combination
`(7, 0.08, 0.04)` when none fits; the empty list returns the baseline
`(8, 0.12, 0.08)` without searching. -/
theorem tag_row_styling_first_fit (W : WidthOracle) (tagValues : List (List Char))
    (maxWidth : ℚ) :
    (tagValues = [] → calculateTagRowStyling W tagValues maxWidth = ⟨8, 12 / 100, 8 / 100⟩)
    ∧ (tagValues ≠ [] →
        calculateTagRowStyling W tagValues maxWidth =
          ((tagCombos.find? (fun c =>
              decide (totalRowWidth W tagValues c.1 c.2.1 c.2.2 ≤ maxWidth * (93 / 100)))).map
            (fun c => (⟨c.1, c.2.1, c.2.2⟩ : TagRowStyling))).getD ⟨7, 8 / 100, 4 / 100⟩) := by
  constructor
  · intro h
    rw [calculateTagRowStyling, if_pos h]
  · intro h
    rw [calculateTagRowStyling, if_neg h, calculateTagRowStyling_split]
    cases tagCombos.find? (fun c =>
        decide (totalRowWidth W tagValues c.1 c.2.1 c.2.2 ≤ maxWidth * (93 / 100))) <;> rfl

/-- C2 witness: a single short tag with ample width gets the baseline styling
via the first combination. -/
theorem tag_row_styling_witness :
    ([("OK").data] : List (List Char)) ≠ []
    ∧ calculateTagRowStyling zeroOracle [("OK").data] (27 / 10) = ⟨8, 12 / 100, 8 / 100⟩ := by
  refine ⟨fun h => List.noConfusion h, ?_⟩
  have h := (tag_row_styling_first_fit zeroOracle [("OK").data] (27 / 10)).2
    (fun hh => List.noConfusion hh)
  rw [h]
  have hfit : (fun c : ℚ × ℚ × ℚ =>
      decide (totalRowWidth zeroOracle [("OK").data] c.1 c.2.1 c.2.2
        ≤ (27 / 10) * (93 / 100))) ((8 : ℚ), (12 : ℚ) / 100, (8 : ℚ) / 100) = true := by
    rw [decide_eq_true_eq]
    show (12 / 100 : ℚ) * 2 + zeroOracle (("OK").data) (("Helvetica").data) 8 / 72
        ≤ (27 / 10) * (93 / 100)
    norm_num [zeroOracle]
  have hfind : tagCombos.find? (fun c =>
      decide (totalRowWidth zeroOracle [("OK").data] c.1 c.2.1 c.2.2
        ≤ (27 / 10) * (93 / 100))) = some ((8 : ℚ), (12 : ℚ) / 100, (8 : ℚ) / 100) := by
    rw [show tagCombos = ((8 : ℚ), (12 : ℚ) / 100, (8 : ℚ) / 100) :: tagCombos.tail from rfl]
    exact List.find?_cons_of_pos _ hfit
  rw [hfind]
  rfl

/-! ## C8: location parsing -/

/-- C8: `LocationParser.parse` splits on commas with trimming; one part gives
city only; two parts give city plus either a US region (with country "United
States") or a country; three or more parts give city, region, country from the
first three parts with the rest ignored; `original` is always preserved. -/
theorem location_parse_spec (locationStr : List Char) :
    (locationParse locationStr).original = locationStr
    ∧ (∀ city, (pySplitComma locationStr).map pyStrip = [city] →
        locationParse locationStr = { original := locationStr, city := city })
    ∧ (∀ city second, (pySplitComma locationStr).map pyStrip = [city, second] →
        (second ∈ US_STATES →
          locationParse locationStr =
            { original := locationStr, city := city, region := some second,
              country := some (("United States").data) })
        ∧ (second ∉ US_STATES →
          locationParse locationStr =
            { original := locationStr, city := city, country := some second }))
    ∧ (∀ city region country rest,
        (pySplitComma locationStr).map pyStrip = city :: region :: country :: rest →
        locationParse locationStr =
          { original := locationStr, city := city, region := some region,
            country := some country }) := by
  refine ⟨?_, ?_, ?_, ?_⟩
  · unfold locationParse
    split <;> first
      | rfl
      | (split <;> rfl)
  · intro city hp
    unfold locationParse
    rw [hp]
  · intro city second hp
    constructor
    · intro hm
      unfold locationParse
      rw [hp]
      exact if_pos hm
    · intro hm
      unfold locationParse
      rw [hp]
      exact if_neg hm
  · intro city region country rest hp
    unfold locationParse
    rw [hp]

/-- C8 witness: "Dayton, Ohio" hits the two-part US-state branch. -/
theorem location_parse_witness :
    (pySplitComma (("Dayton, Ohio").data)).map pyStrip = [("Dayton").data, ("Ohio").data]
    ∧ ("Ohio").data ∈ US_STATES
    ∧ locationParse (("Dayton, Ohio").data) =
        { original := ("Dayton, Ohio").data, city := ("Dayton").data,
          region := some (("Ohio").data), country := some (("United States").data) } :=
  ⟨by decide, by decide,
   ((location_parse_spec (("Dayton, Ohio").data)).2.2.1 (("Dayton").data) (("Ohio").data)
      (by decide)).1 (by decide)⟩

/-! ## C4: vertical flow layout -/

/-- C4: for 0–2 title lines, `interests_top` follows the additive cascade
`1.83 + title_height + 0.04 + company_height + 0.10`; the interests band's
bottom edge never passes 3.52in; when the available height
`3.52 − interests_top` is below the nominal 1.35in the band is scaled to
exactly the available height at 2:1 aspect ratio and centered via
`left_offset = (2.7 − width)/2`, otherwise it keeps 2.7in × 1.35in with zero
offset; and the 2-line `interests_top` exceeds the 0-line one by exactly
`2 × 10 × 1.2 / 72` inches. -/
theorem vertical_flow_spec (titleLines : ℕ) (h : titleLines ≤ 2) :
    (verticalFlow titleLines).interestsTop
        = 183 / 100 + (titleLines : ℚ) * (10 * (12 / 10) / 72) + 4 / 100
          + 9 * (12 / 10) / 72 + 10 / 100
    ∧ (verticalFlow titleLines).interestsTop + (verticalFlow titleLines).scaledHeight
        ≤ 352 / 100
    ∧ (352 / 100 - (verticalFlow titleLines).interestsTop < 135 / 100 →
        (verticalFlow titleLines).scaledHeight
            = 352 / 100 - (verticalFlow titleLines).interestsTop
        ∧ (verticalFlow titleLines).scaledWidth = 2 * (verticalFlow titleLines).scaledHeight
        ∧ (verticalFlow titleLines).leftOffset
            = (27 / 10 - (verticalFlow titleLines).scaledWidth) / 2)
    ∧ (¬(352 / 100 - (verticalFlow titleLines).interestsTop < 135 / 100) →
        (verticalFlow titleLines).scaledHeight = 135 / 100
        ∧ (verticalFlow titleLines).scaledWidth = 27 / 10
        ∧ (verticalFlow titleLines).leftOffset = 0)
    ∧ (verticalFlow 2).interestsTop - (verticalFlow 0).interestsTop
        = 2 * 10 * (12 / 10) / 72 := by
  interval_cases titleLines <;>
    norm_num [verticalFlow, titleBlockHeight]

/-- C4 witness at one title line (the band must shrink there). -/
theorem vertical_flow_witness :
    (1 : ℕ) ≤ 2
    ∧ (verticalFlow 1).interestsTop
        = 183 / 100 + ((1 : ℕ) : ℚ) * (10 * (12 / 10) / 72) + 4 / 100
          + 9 * (12 / 10) / 72 + 10 / 100
    ∧ (verticalFlow 1).interestsTop + (verticalFlow 1).scaledHeight ≤ 352 / 100 :=
  ⟨by norm_num, (vertical_flow_spec 1 (by norm_num)).1,
   (vertical_flow_spec 1 (by norm_num)).2.1⟩

/-! ## C9: coordinate transformer -/

/-- C9: the transformer uses the uniform scale
`min(cw·0.8/geo_width, ch·0.8/geo_height)` (10% padding per side) with
centering offsets; every point of a non-degenerate bounding box lands in the
central 80% of the canvas; and the Y axis is flipped — at equal longitude,
greater latitude maps to strictly smaller pixel y. -/
theorem coordinate_transformer_spec
    (minx miny maxx maxy cw ch lon lat : ℚ)
    (hx : minx < maxx) (hy : miny < maxy) (hcw : 0 < cw) (hch : 0 < ch)
    (hlon1 : minx ≤ lon) (hlon2 : lon ≤ maxx) (hlat1 : miny ≤ lat) (hlat2 : lat ≤ maxy) :
    (mkCoordinateTransformer (minx, miny, maxx, maxy) (cw, ch)).scale
        = min (cw * (8 / 10) / (maxx - minx)) (ch * (8 / 10) / (maxy - miny))
    ∧ cw * (1 / 10)
        ≤ (geoToPixel (mkCoordinateTransformer (minx, miny, maxx, maxy) (cw, ch)) lon lat).1
    ∧ (geoToPixel (mkCoordinateTransformer (minx, miny, maxx, maxy) (cw, ch)) lon lat).1
        ≤ cw * (9 / 10)
    ∧ ch * (1 / 10)
        ≤ (geoToPixel (mkCoordinateTransformer (minx, miny, maxx, maxy) (cw, ch)) lon lat).2
    ∧ (geoToPixel (mkCoordinateTransformer (minx, miny, maxx, maxy) (cw, ch)) lon lat).2
        ≤ ch * (9 / 10)
    ∧ (∀ lat1 lat2 : ℚ, lat1 < lat2 →
        (geoToPixel (mkCoordinateTransformer (minx, miny, maxx, maxy) (cw, ch)) lon lat2).2
          < (geoToPixel (mkCoordinateTransformer (minx, miny, maxx, maxy) (cw, ch)) lon lat1).2) := by
  have hgw : (0 : ℚ) < maxx - minx := by linarith
  have hgh : (0 : ℚ) < maxy - miny := by linarith
  have hgw0 : maxx - minx ≠ 0 := ne_of_gt hgw
  have hgh0 : maxy - miny ≠ 0 := ne_of_gt hgh
  have hnex : maxx ≠ minx := ne_of_gt hx
  have hney : maxy ≠ miny := ne_of_gt hy
  have h45 : (0 : ℚ) < 1 - 2 * (1 / 10) := by norm_num
  simp only [mkCoordinateTransformer, geoToPixel]
  rw [if_pos hnex, if_pos hney]
  set s : ℚ := min (cw * (1 - 2 * (1 / 10)) / (maxx - minx))
      (ch * (1 - 2 * (1 / 10)) / (maxy - miny)) with hs
  have hs1 : s ≤ cw * (1 - 2 * (1 / 10)) / (maxx - minx) := min_le_left _ _
  have hs2 : s ≤ ch * (1 - 2 * (1 / 10)) / (maxy - miny) := min_le_right _ _
  have hspos : (0 : ℚ) < s :=
    lt_min (div_pos (mul_pos hcw h45) hgw) (div_pos (mul_pos hch h45) hgh)
  have hprodx : s * (maxx - minx) ≤ cw * (1 - 2 * (1 / 10)) := (le_div_iff₀ hgw).mp hs1
  have hprody : s * (maxy - miny) ≤ ch * (1 - 2 * (1 / 10)) := (le_div_iff₀ hgh).mp hs2
  have hcanx : (lon - minx) / (maxx - minx) * (maxx - minx) = lon - minx :=
    div_mul_cancel₀ _ hgw0
  have hcany : ∀ z : ℚ, (maxy - z) / (maxy - miny) * (maxy - miny) = maxy - z :=
    fun z => div_mul_cancel₀ _ hgh0
  refine ⟨by rw [hs]; norm_num, ?_, ?_, ?_, ?_, ?_⟩
  · rw [hcanx]
    have h1 : (0 : ℚ) ≤ (lon - minx) * s := mul_nonneg (by linarith) hspos.le
    have h2 : (maxx - minx) * s ≤ cw * (1 - 2 * (1 / 10)) := by linarith [hprodx]
    nlinarith [h1, h2]
  · rw [hcanx]
    have h1 : (lon - minx) * s ≤ (maxx - minx) * s :=
      mul_le_mul_of_nonneg_right (by linarith) hspos.le
    have h2 : (maxx - minx) * s ≤ cw * (1 - 2 * (1 / 10)) := by linarith [hprodx]
    nlinarith [h1, h2]
  · rw [hcany]
    have h1 : (0 : ℚ) ≤ (maxy - lat) * s := mul_nonneg (by linarith) hspos.le
    have h2 : (maxy - miny) * s ≤ ch * (1 - 2 * (1 / 10)) := by linarith [hprody]
    nlinarith [h1, h2]
  · rw [hcany]
    have h1 : (maxy - lat) * s ≤ (maxy - miny) * s :=
      mul_le_mul_of_nonneg_right (by linarith) hspos.le
    have h2 : (maxy - miny) * s ≤ ch * (1 - 2 * (1 / 10)) := by linarith [hprody]
    nlinarith [h1, h2]
  · intro lat1 lat2 hlt
    rw [if_pos hney, if_pos hney, hcany, hcany]
    have : (maxy - lat2) * s < (maxy - lat1) * s :=
      mul_lt_mul_of_pos_right (by linarith) hspos
    linarith

/-- C9 witness: a 2×1 bounding box on a 100×100 canvas. -/
theorem coordinate_transformer_witness :
    ((0 : ℚ) < 2 ∧ (0 : ℚ) < 1 ∧ (0 : ℚ) < 100)
    ∧ (mkCoordinateTransformer (0, 0, 2, 1) (100, 100)).scale
        = min ((100 : ℚ) * (8 / 10) / (2 - 0)) ((100 : ℚ) * (8 / 10) / (1 - 0))
    ∧ (100 : ℚ) * (1 / 10)
        ≤ (geoToPixel (mkCoordinateTransformer (0, 0, 2, 1) (100, 100)) 1 0).1 :=
  ⟨⟨by norm_num, by norm_num, by norm_num⟩,
   (coordinate_transformer_spec 0 0 2 1 100 100 1 0 (by norm_num) (by norm_num)
      (by norm_num) (by norm_num) (by norm_num) (by norm_num) (by norm_num) (by norm_num)).1,
   (coordinate_transformer_spec 0 0 2 1 100 100 1 0 (by norm_num) (by norm_num)
      (by norm_num) (by norm_num) (by norm_num) (by norm_num) (by norm_num)
      (by norm_num)).2.1⟩
